import Mathlib

/-!
Shallow embedding of `lib/provisioning/account.js` of the cloudinary_npm
repository: a parameter-marshaling layer over the account-provisioning
REST API.  Each exported JavaScript function builds an HTTP method, a URI
segment list, a parameter mapping and an options mapping, and forwards
them to the external `call_account_api` transport collaborator.  We model
each function as a pure builder producing the `ApiCall` descriptor that
is handed to the transport (the callback argument plays no role in the
descriptor and is omitted).

JavaScript `undefined` is modelled by `Option`: a parameter mapping is an
association list `List (String × Option Value)` where an entry `(k, none)`
is a key present in the object but bound to `undefined`, and an options
mapping is `List (String × Value)` (a key a caller did not set is simply
absent), looked up with `getField`.
-/

namespace CloudinaryAccount

/-- Scalar JavaScript values appearing in parameter and option mappings. -/
inductive Scalar where
  | str : String → Scalar
  | bool : Bool → Scalar
  | num : Int → Scalar
deriving DecidableEq

/-- Values of parameter and option fields: scalars, arrays of scalars
(id lists), or flat objects (custom attributes). -/
inductive Value where
  | scalar : Scalar → Value
  | arr : List Scalar → Value
  | obj : List (String × Scalar) → Value
deriving DecidableEq

/-- Parameter mapping: keys to possibly-`undefined` values. -/
abbrev Params := List (String × Option Value)

/-- Options mapping: only the keys the caller (or the builder) set. -/
abbrev Options := List (String × Value)

/-- The string value `"json"` assigned to `content_type`. -/
def jsonV : Value := Value.scalar (Scalar.str "json")

/-- Field lookup on an options object (JS property read: `options.k`). -/
def getField (o : Options) (k : String) : Option Value :=
  match o with
  | [] => none
  | (k', v) :: rest => if k' = k then some v else getField rest k

/-- Field assignment on an options object (JS `options.k = v`): replaces
the value of an existing key in place, otherwise appends the new key. -/
def setField (o : Options) (k : String) (v : Value) : Options :=
  match o with
  | [] => [(k, v)]
  | (k', v') :: rest => if k' = k then (k, v) :: rest else (k', v') :: setField rest k v

/-- Modelled from the spec: `pickOnlyExistingValues` is imported from
`lib/utils`, which is not part of the reviewed source.  Per the spec it is
a generic strip-undefined-valued-keys utility that "removes entries whose
value is the 'absent' sentinel, preserving insertion order of remaining
entries", restricted to the listed keys as at every call site in
`account.js`. -/
def pickOnlyExistingValues (m : Params) (keys : List String) : Params :=
  m.filter (fun p => keys.contains p.1 && p.2.isSome)

/-- A parameter mapping has no key bound to the absent sentinel. -/
def noAbsent (m : Params) : Bool :=
  m.all (fun p => p.2.isSome)

/-- HTTP methods used by the module. -/
inductive Method where
  | GET | POST | PUT | DELETE
deriving DecidableEq

/-- The descriptor forwarded to the `call_account_api` transport
collaborator: method, URI segments, parameter mapping, options mapping. -/
structure ApiCall where
  method : Method
  uri : List String
  params : Params
  options : Options
deriving DecidableEq

/-- `sub_accounts(enabled, ids = [], prefix, options = ...)` — lists
sub-accounts.  The `ids` argument defaults to the empty list when not
supplied (JS default parameter). -/
def sub_accounts (enabled : Option Value) (ids : Option Value) (pfx : Option Value)
    (options : Options) : ApiCall :=
  let ids := ids.getD (Value.arr [])
  { method := Method.GET
    uri := ["sub_accounts"]
    params := [("enabled", enabled), ("ids", some ids), ("prefix", pfx)]
    options := options }

/-- `sub_account(sub_account_id, options)` — retrieves one sub-account. -/
def sub_account (sub_account_id : String) (options : Options) : ApiCall :=
  { method := Method.GET
    uri := ["sub_accounts", sub_account_id]
    params := []
    options := options }

/-- `create_sub_account(name, cloud_name, custom_attributes, enabled,
base_account, options)` — creates a sub-account; sets
`options.content_type = "json"`. -/
def create_sub_account (name cloud_name custom_attributes enabled base_account : Option Value)
    (options : Options) : ApiCall :=
  { method := Method.POST
    uri := ["sub_accounts"]
    params := [("cloud_name", cloud_name), ("name", name),
               ("custom_attributes", custom_attributes), ("enabled", enabled),
               ("base_sub_account_id", base_account)]
    options := setField options "content_type" jsonV }

/-- `delete_sub_account(sub_account_id, options)` — deletes a sub-account. -/
def delete_sub_account (sub_account_id : String) (options : Options) : ApiCall :=
  { method := Method.DELETE
    uri := ["sub_accounts", sub_account_id]
    params := []
    options := options }

/-- `update_sub_account(sub_account_id, name, cloud_name,
custom_attributes, enabled, options)` — updates a sub-account; sets
`options.content_type = "json"`. -/
def update_sub_account (sub_account_id : String)
    (name cloud_name custom_attributes enabled : Option Value)
    (options : Options) : ApiCall :=
  { method := Method.PUT
    uri := ["sub_accounts", sub_account_id]
    params := [("cloud_name", cloud_name), ("name", name),
               ("custom_attributes", custom_attributes), ("enabled", enabled)]
    options := setField options "content_type" jsonV }

/-- `user(user_id, options)` — retrieves one user. -/
def user (user_id : String) (options : Options) : ApiCall :=
  { method := Method.GET
    uri := ["users", user_id]
    params := []
    options := options }

/-- `users(pending, user_ids, prefix, sub_account_id, options)` — lists
users; the params are filtered through `pickOnlyExistingValues`. -/
def users (pending user_ids pfx sub_account_id : Option Value)
    (options : Options) : ApiCall :=
  { method := Method.GET
    uri := ["users"]
    params := pickOnlyExistingValues
      [("ids", user_ids), ("pending", pending), ("prefix", pfx),
       ("sub_account_id", sub_account_id)]
      ["ids", "pending", "prefix", "sub_account_id"]
    options := options }

/-- `create_user(name, email, role, sub_account_ids, options)` — creates a
user; sets `options.content_type = 'json'`. -/
def create_user (name email role sub_account_ids : Option Value)
    (options : Options) : ApiCall :=
  { method := Method.POST
    uri := ["users"]
    params := [("name", name), ("email", email), ("role", role),
               ("sub_account_ids", sub_account_ids)]
    options := setField options "content_type" jsonV }

/-- `update_user(user_id, name, email, role, sub_account_ids, options)` —
updates a user; sets `options.content_type = 'json'`. -/
def update_user (user_id : String) (name email role sub_account_ids : Option Value)
    (options : Options) : ApiCall :=
  { method := Method.PUT
    uri := ["users", user_id]
    params := [("name", name), ("email", email), ("role", role),
               ("sub_account_ids", sub_account_ids)]
    options := setField options "content_type" jsonV }

/-- `delete_user(user_id, options)` — deletes a user. -/
def delete_user (user_id : String) (options : Options) : ApiCall :=
  { method := Method.DELETE
    uri := ["users", user_id]
    params := []
    options := options }

/-- `create_user_group(name, options)` — creates a user group; sets
`options.content_type = 'json'`. -/
def create_user_group (name : Option Value) (options : Options) : ApiCall :=
  { method := Method.POST
    uri := ["user_groups"]
    params := [("name", name)]
    options := setField options "content_type" jsonV }

/-- `update_user_group(group_id, name, options)` — updates a user group.
Note: the source does not set `content_type` here. -/
def update_user_group (group_id : String) (name : Option Value)
    (options : Options) : ApiCall :=
  { method := Method.PUT
    uri := ["user_groups", group_id]
    params := [("name", name)]
    options := options }

/-- `delete_user_group(group_id, options)` — deletes a user group. -/
def delete_user_group (group_id : String) (options : Options) : ApiCall :=
  { method := Method.DELETE
    uri := ["user_groups", group_id]
    params := []
    options := options }

/-- `add_user_to_group(group_id, user_id, options)` — adds a user to a
group. -/
def add_user_to_group (group_id user_id : String) (options : Options) : ApiCall :=
  { method := Method.POST
    uri := ["user_groups", group_id, "users", user_id]
    params := []
    options := options }

/-- `remove_user_from_group(group_id, user_id, options)` — removes a user
from a group. -/
def remove_user_from_group (group_id user_id : String) (options : Options) : ApiCall :=
  { method := Method.DELETE
    uri := ["user_groups", group_id, "users", user_id]
    params := []
    options := options }

/-- `user_group(group_id, options)` — retrieves one user group. -/
def user_group (group_id : String) (options : Options) : ApiCall :=
  { method := Method.GET
    uri := ["user_groups", group_id]
    params := []
    options := options }

/-- `user_groups(options)` — lists user groups. -/
def user_groups (options : Options) : ApiCall :=
  { method := Method.GET
    uri := ["user_groups"]
    params := []
    options := options }

/-- `user_group_users(group_id, options)` — lists users in a group. -/
def user_group_users (group_id : String) (options : Options) : ApiCall :=
  { method := Method.GET
    uri := ["user_groups", group_id, "users"]
    params := []
    options := options }

/-- `access_keys(sub_account_id, options)` — lists access keys; the
filterable fields are read from the options mapping and filtered through
`pickOnlyExistingValues`. -/
def access_keys (sub_account_id : String) (options : Options) : ApiCall :=
  { method := Method.GET
    uri := ["sub_accounts", sub_account_id, "access_keys"]
    params := pickOnlyExistingValues
      [("page_size", getField options "page_size"), ("page", getField options "page"),
       ("sort_by", getField options "sort_by"), ("sort_order", getField options "sort_order")]
      ["page_size", "page", "sort_by", "sort_order"]
    options := options }

/-- `generate_access_key(sub_account_id, options)` — generates an access
key; reads `name`/`enabled` from options, filters them, and sets
`options.content_type = "json"`. -/
def generate_access_key (sub_account_id : String) (options : Options) : ApiCall :=
  { method := Method.POST
    uri := ["sub_accounts", sub_account_id, "access_keys"]
    params := pickOnlyExistingValues
      [("name", getField options "name"), ("enabled", getField options "enabled")]
      ["name", "enabled"]
    options := setField options "content_type" jsonV }

/-- `update_access_key(sub_account_id, api_key, options)` — updates an
access key; reads `name`/`enabled` from options, filters them, and sets
`options.content_type = "json"`. -/
def update_access_key (sub_account_id api_key : String) (options : Options) : ApiCall :=
  { method := Method.PUT
    uri := ["sub_accounts", sub_account_id, "access_keys", api_key]
    params := pickOnlyExistingValues
      [("name", getField options "name"), ("enabled", getField options "enabled")]
      ["name", "enabled"]
    options := setField options "content_type" jsonV }

/-- `delete_access_key(sub_account_id, api_key, options)` — deletes an
access key by id. -/
def delete_access_key (sub_account_id api_key : String) (options : Options) : ApiCall :=
  { method := Method.DELETE
    uri := ["sub_accounts", sub_account_id, "access_keys", api_key]
    params := []
    options := options }

/-- `delete_access_key_by_name(sub_account_id, options)` — deletes an
access key by its name; `params = { name: options.name }` unconditionally. -/
def delete_access_key_by_name (sub_account_id : String) (options : Options) : ApiCall :=
  { method := Method.DELETE
    uri := ["sub_accounts", sub_account_id, "access_keys"]
    params := [("name", getField options "name")]
    options := options }

/-- One value of `Op` per exported operation of the module, carrying the
arguments of a call; used to state determinism over the whole surface. -/
inductive Op where
  | sub_accounts (enabled ids pfx : Option Value) (options : Options)
  | sub_account (sub_account_id : String) (options : Options)
  | create_sub_account (name cloud_name custom_attributes enabled base_account : Option Value) (options : Options)
  | delete_sub_account (sub_account_id : String) (options : Options)
  | update_sub_account (sub_account_id : String) (name cloud_name custom_attributes enabled : Option Value) (options : Options)
  | user (user_id : String) (options : Options)
  | users (pending user_ids pfx sub_account_id : Option Value) (options : Options)
  | create_user (name email role sub_account_ids : Option Value) (options : Options)
  | update_user (user_id : String) (name email role sub_account_ids : Option Value) (options : Options)
  | delete_user (user_id : String) (options : Options)
  | create_user_group (name : Option Value) (options : Options)
  | update_user_group (group_id : String) (name : Option Value) (options : Options)
  | delete_user_group (group_id : String) (options : Options)
  | add_user_to_group (group_id user_id : String) (options : Options)
  | remove_user_from_group (group_id user_id : String) (options : Options)
  | user_group (group_id : String) (options : Options)
  | user_groups (options : Options)
  | user_group_users (group_id : String) (options : Options)
  | access_keys (sub_account_id : String) (options : Options)
  | generate_access_key (sub_account_id : String) (options : Options)
  | update_access_key (sub_account_id api_key : String) (options : Options)
  | delete_access_key (sub_account_id api_key : String) (options : Options)
  | delete_access_key_by_name (sub_account_id : String) (options : Options)
deriving DecidableEq

/-- Dispatch an `Op` to the corresponding request builder. -/
def run : Op → ApiCall
  | Op.sub_accounts e i p o => sub_accounts e i p o
  | Op.sub_account s o => sub_account s o
  | Op.create_sub_account n c ca e b o => create_sub_account n c ca e b o
  | Op.delete_sub_account s o => delete_sub_account s o
  | Op.update_sub_account s n c ca e o => update_sub_account s n c ca e o
  | Op.user u o => user u o
  | Op.users p ui px sa o => users p ui px sa o
  | Op.create_user n e r sa o => create_user n e r sa o
  | Op.update_user u n e r sa o => update_user u n e r sa o
  | Op.delete_user u o => delete_user u o
  | Op.create_user_group n o => create_user_group n o
  | Op.update_user_group g n o => update_user_group g n o
  | Op.delete_user_group g o => delete_user_group g o
  | Op.add_user_to_group g u o => add_user_to_group g u o
  | Op.remove_user_from_group g u o => remove_user_from_group g u o
  | Op.user_group g o => user_group g o
  | Op.user_groups o => user_groups o
  | Op.user_group_users g o => user_group_users g o
  | Op.access_keys s o => access_keys s o
  | Op.generate_access_key s o => generate_access_key s o
  | Op.update_access_key s k o => update_access_key s k o
  | Op.delete_access_key s k o => delete_access_key s k o
  | Op.delete_access_key_by_name s o => delete_access_key_by_name s o

/-- After `setField o k v`, reading `k` yields `v`. -/
theorem getField_setField_self (o : Options) (k : String) (v : Value) :
    getField (setField o k v) k = some v := by
  induction o with
  | nil => simp [setField, getField]
  | cons p rest ih =>
    obtain ⟨k1, v1⟩ := p
    by_cases h : k1 = k
    · simp [setField, getField, h]
    · simp [setField, getField, h, ih]

/-- `setField o k v` leaves every other key unchanged. -/
theorem getField_setField_ne (o : Options) (k q : String) (v : Value) (h : q ≠ k) :
    getField (setField o k v) q = getField o q := by
  induction o with
  | nil => simp [setField, getField, Ne.symm h]
  | cons p rest ih =>
    obtain ⟨k1, v1⟩ := p
    by_cases hk : k1 = k
    · subst hk
      simp [setField, getField, Ne.symm h]
    · by_cases hq : k1 = q
      · subst hq
        simp [setField, getField, hk]
      · simp [setField, getField, hk, hq, ih]

/-- The existing-values-only filter never leaves a key bound to the absent
sentinel. -/
theorem noAbsent_pick (m : Params) (keys : List String) :
    noAbsent (pickOnlyExistingValues m keys) = true := by
  simp only [noAbsent, pickOnlyExistingValues, List.all_eq_true]
  intro p hp
  rw [List.mem_filter] at hp
  exact (Bool.and_eq_true _ _ |>.mp hp.2).2

/-- C1 counterexample: the claim says `update_user_group` forwards options
with `content_type = "json"`, but the source of `update_user_group` never
sets `content_type`; with empty caller options the forwarded options have
no `content_type` field at all. -/
theorem C1_counterexample :
    getField (update_user_group "g1" (some (Value.scalar (Scalar.str "n1"))) []).options
      "content_type" ≠ some jsonV := by
  simp [update_user_group, getField]

/-- C1 (amended): every structured create/update operation except
`update_user_group` — create_sub_account, update_sub_account, create_user,
update_user, create_user_group, generate_access_key, update_access_key —
forwards an options mapping whose `content_type` field is `"json"`. -/
theorem C1_content_type_json_amended
    (n c ca e b : Option Value) (s g ak : String)
    (o1 o2 o3 o4 o5 o6 o7 : Options) :
    getField (create_sub_account n c ca e b o1).options "content_type" = some jsonV ∧
    getField (update_sub_account s n c ca e o2).options "content_type" = some jsonV ∧
    getField (create_user n c e ca o3).options "content_type" = some jsonV ∧
    getField (update_user g n c e ca o4).options "content_type" = some jsonV ∧
    getField (create_user_group n o5).options "content_type" = some jsonV ∧
    getField (generate_access_key s o6).options "content_type" = some jsonV ∧
    getField (update_access_key s ak o7).options "content_type" = some jsonV := by
  refine ⟨?_, ?_, ?_, ?_, ?_, ?_, ?_⟩ <;>
    simp [create_sub_account, update_sub_account, create_user, update_user,
      create_user_group, generate_access_key, update_access_key,
      getField_setField_self]

/-- C2 counterexample: the claim says the params of `sub_accounts` are
produced by the existing-values-only filter, with no key bound to the
absent sentinel; but with `enabled` and `prefix` unsupplied the source
forwards `enabled` and `prefix` bound to `undefined` (and it reads its
fields from positional arguments, not from the options mapping). -/
theorem C2_counterexample :
    noAbsent (sub_accounts none none none []).params = false := by
  rfl

/-- C2 (amended): only the access-key operations (access_keys,
generate_access_key, update_access_key) both filter their params through
the existing-values-only policy and read the filterable fields from the
options mapping; `users` applies the filter but to positionally supplied
fields (its params ignore the options mapping), and `sub_accounts` neither
filters nor reads from options — it forwards its raw positional fields,
absent sentinels included. -/
theorem C2_filter_and_options_sources_amended
    (p ui px sa : Option Value) (s ak : String) (o o' : Options)
    (hps : getField o "page_size" = getField o' "page_size")
    (hpg : getField o "page" = getField o' "page")
    (hsb : getField o "sort_by" = getField o' "sort_by")
    (hso : getField o "sort_order" = getField o' "sort_order")
    (hn : getField o "name" = getField o' "name")
    (he : getField o "enabled" = getField o' "enabled") :
    noAbsent (access_keys s o).params = true ∧
    noAbsent (generate_access_key s o).params = true ∧
    noAbsent (update_access_key s ak o).params = true ∧
    noAbsent (users p ui px sa o).params = true ∧
    (access_keys s o).params = (access_keys s o').params ∧
    (generate_access_key s o).params = (generate_access_key s o').params ∧
    (update_access_key s ak o).params = (update_access_key s ak o').params ∧
    (users p ui px sa o).params = (users p ui px sa o').params ∧
    (sub_accounts p ui px o).params =
      [("enabled", p), ("ids", some (ui.getD (Value.arr []))), ("prefix", px)] :=
  ⟨noAbsent_pick _ _, noAbsent_pick _ _, noAbsent_pick _ _, noAbsent_pick _ _,
   by simp [access_keys, hps, hpg, hsb, hso],
   by simp [generate_access_key, hn, he],
   by simp [update_access_key, hn, he],
   rfl, rfl⟩

/-- C2 witness: the amended statement instantiated at concrete inputs. -/
theorem C2_witness :
    noAbsent (access_keys "s1" []).params = true ∧
    noAbsent (generate_access_key "s1" []).params = true ∧
    noAbsent (update_access_key "s1" "k1" []).params = true ∧
    noAbsent (users none none none none []).params = true ∧
    (access_keys "s1" []).params = (access_keys "s1" []).params ∧
    (generate_access_key "s1" []).params = (generate_access_key "s1" []).params ∧
    (update_access_key "s1" "k1" []).params = (update_access_key "s1" "k1" []).params ∧
    (users none none none none []).params = (users none none none none []).params ∧
    (sub_accounts none none none []).params =
      [("enabled", none), ("ids", some (Value.arr [])), ("prefix", none)] :=
  C2_filter_and_options_sources_amended none none none none "s1" "k1" [] []
    rfl rfl rfl rfl rfl rfl

/-- C3 counterexample: the claim says an unset `name` option never appears
in the forwarded params of `delete_access_key_by_name`; but the source
builds `params = { name: options.name }` unconditionally, so with empty
options the `name` key is present, bound to the absent sentinel. -/
theorem C3_counterexample :
    ("name", (none : Option Value)) ∈ (delete_access_key_by_name "acct1" []).params := by
  simp [delete_access_key_by_name, getField]

/-- C3 (amended): with `sub_account_id = "acct1"` and options
`{name: "key1"}` the descriptor is
`(DELETE, ["sub_accounts","acct1","access_keys"], {name: "key1"})`; when
the `name` option is unset the `name` key is still forwarded, bound to the
absent sentinel, and no key other than `name` (e.g. `page`) ever appears
in the params. -/
theorem C3_delete_by_name_descriptor_amended (s : String) (o : Options)
    (h : getField o "name" = none) :
    delete_access_key_by_name "acct1" [("name", Value.scalar (Scalar.str "key1"))] =
      { method := Method.DELETE
        uri := ["sub_accounts", "acct1", "access_keys"]
        params := [("name", some (Value.scalar (Scalar.str "key1")))]
        options := [("name", Value.scalar (Scalar.str "key1"))] } ∧
    (delete_access_key_by_name s o).params = [("name", none)] ∧
    ∀ q ∈ (delete_access_key_by_name s o).params, q.1 = "name" :=
  ⟨rfl,
   by simp [delete_access_key_by_name, h],
   by simp [delete_access_key_by_name]⟩

/-- C3 witness: the amended statement instantiated with unset options. -/
theorem C3_witness :
    getField ([] : Options) "name" = none ∧
    (delete_access_key_by_name "a1" []).params = [("name", none)] :=
  ⟨rfl, (C3_delete_by_name_descriptor_amended "a1" [] rfl).2.1⟩

/-- C4: whenever an operation applies the pick-existing filter to build
its params (`users`, `access_keys`, `generate_access_key`,
`update_access_key`), the mapping forwarded to the transport contains no
key bound to the "not provided" sentinel, for every combination of
supplied and unsupplied optional fields. -/
theorem C4_no_absent_after_filter
    (p ui px sa : Option Value) (s ak : String) (o1 o2 o3 o4 : Options) :
    noAbsent (users p ui px sa o1).params = true ∧
    noAbsent (access_keys s o2).params = true ∧
    noAbsent (generate_access_key s o3).params = true ∧
    noAbsent (update_access_key s ak o4).params = true :=
  ⟨noAbsent_pick _ _, noAbsent_pick _ _, noAbsent_pick _ _, noAbsent_pick _ _⟩

/-- C5: `create_sub_account` forwards an options mapping whose
`content_type` is `"json"` — overriding any caller-supplied value — while
every other field of the caller-supplied options mapping is readable
unchanged in the forwarded mapping. -/
theorem C5_create_sub_account_options_frame
    (n c ca e b : Option Value) (o : Options) (k : String)
    (h : k ≠ "content_type") :
    getField (create_sub_account n c ca e b o).options "content_type" = some jsonV ∧
    getField (create_sub_account n c ca e b o).options k = getField o k :=
  ⟨by simp [create_sub_account, getField_setField_self],
   by simp [create_sub_account, getField_setField_ne _ _ _ _ h]⟩

/-- C5 witness: caller sets both a `page` field and a bogus
`content_type`; the forwarded options have `content_type = "json"` and
`page` preserved. -/
theorem C5_witness :
    ("page" : String) ≠ "content_type" ∧
    getField (create_sub_account none none none none none
      [("content_type", Value.scalar (Scalar.str "xml")),
       ("page", Value.scalar (Scalar.num 2))]).options "content_type" = some jsonV ∧
    getField (create_sub_account none none none none none
      [("content_type", Value.scalar (Scalar.str "xml")),
       ("page", Value.scalar (Scalar.num 2))]).options "page" =
      getField [("content_type", Value.scalar (Scalar.str "xml")),
                ("page", Value.scalar (Scalar.num 2))] "page" := by
  refine ⟨by decide, ?_⟩
  exact C5_create_sub_account_options_frame none none none none none _ "page" (by decide)

/-- C6: when only `page_size` is set among the filterable options of
`access_keys`, the forwarded params mapping is exactly
`{page_size: <value>}`. -/
theorem C6_access_keys_page_size_only (s : String) (o : Options) (v : Value)
    (hps : getField o "page_size" = some v)
    (hpg : getField o "page" = none)
    (hsb : getField o "sort_by" = none)
    (hso : getField o "sort_order" = none) :
    (access_keys s o).params = [("page_size", some v)] := by
  simp only [access_keys, hps, hpg, hsb, hso]
  rfl

/-- C6 witness: `options = {page_size: 5}`. -/
theorem C6_witness :
    getField [("page_size", Value.scalar (Scalar.num 5))] "page_size" =
      some (Value.scalar (Scalar.num 5)) ∧
    getField [("page_size", Value.scalar (Scalar.num 5))] "page" = none ∧
    getField [("page_size", Value.scalar (Scalar.num 5))] "sort_by" = none ∧
    getField [("page_size", Value.scalar (Scalar.num 5))] "sort_order" = none ∧
    (access_keys "s1" [("page_size", Value.scalar (Scalar.num 5))]).params =
      [("page_size", some (Value.scalar (Scalar.num 5)))] := by
  refine ⟨by decide, by decide, by decide, by decide, ?_⟩
  exact C6_access_keys_page_size_only "s1" _ _ (by decide) (by decide) (by decide) (by decide)

/-- C7: the pick-existing filter is idempotent — filtering an already
filtered mapping with the same key set is the identity — and it preserves
the insertion order of the entries it keeps (the output is a sublist of
the input). -/
theorem C7_pick_idempotent_order_preserving (m : Params) (keys : List String) :
    pickOnlyExistingValues (pickOnlyExistingValues m keys) keys
      = pickOnlyExistingValues m keys ∧
    List.Sublist (pickOnlyExistingValues m keys) m := by
  refine ⟨?_, List.filter_sublist m⟩
  rw [pickOnlyExistingValues, pickOnlyExistingValues, List.filter_filter]
  exact List.filter_congr (fun a _ => Bool.and_self _)

/-- C8: `add_user_to_group` and `remove_user_from_group` both forward the
URI segments `["user_groups", group_id, "users", user_id]`, the group
identifier before the user identifier. -/
theorem C8_group_membership_uri (g u : String) (o1 o2 : Options) :
    (add_user_to_group g u o1).uri = ["user_groups", g, "users", u] ∧
    (remove_user_from_group g u o2).uri = ["user_groups", g, "users", u] :=
  ⟨rfl, rfl⟩

/-- C9: every exported operation is deterministic — invoking the request
builder twice with structurally identical arguments yields structurally
equal descriptors; there is no hidden state between invocations. -/
theorem C9_determinism (a b : Op) (h : a = b) : run a = run b := by
  rw [h]

/-- C9 witness: two structurally identical `user_groups` calls produce
equal descriptors. -/
theorem C9_witness :
    (Op.user_groups [] = Op.user_groups []) ∧
    run (Op.user_groups []) = run (Op.user_groups []) :=
  ⟨rfl, C9_determinism (Op.user_groups []) (Op.user_groups []) rfl⟩

/-- C10: when `ids` is not supplied to `sub_accounts` it defaults to the
empty list, so the `ids` key is bound to `[]` in the forwarded params,
while unsupplied `enabled` and `prefix` are forwarded bound to the absent
sentinel; and the `ids` key is present in the params of every
`sub_accounts` call. -/
theorem C10_sub_accounts_ids_default
    (e px ids : Option Value) (o1 o2 : Options) :
    (sub_accounts none none none o1).params =
      [("enabled", none), ("ids", some (Value.arr [])), ("prefix", none)] ∧
    (sub_accounts e none px o1).params =
      [("enabled", e), ("ids", some (Value.arr [])), ("prefix", px)] ∧
    List.map Prod.fst (sub_accounts e ids px o2).params =
      ["enabled", "ids", "prefix"] :=
  ⟨rfl, rfl, rfl⟩

end CloudinaryAccount
